import Mathlib

/-!
Shallow embedding of `src/main.py` (orderlinks-gmail-filter): a push-triggered
relay that decodes a Pub/Sub envelope, resolves Gmail credentials from Bubble,
reads the Gmail history window, extracts added-message identifiers and fans
each one out to a Cloud Tasks queue.

External collaborators (base64/json decoding, the two HTTP backends and the
Cloud Tasks client) are modelled as oracle functions collected in a `World`
record; an exception escaping the handler is the `raised` outcome and
surfaces as `PipeResult.processError` (an HTTP 5xx from the framework).
Every network request attempted is recorded in a trace of `NetCall`s.
-/

namespace GmailFilter

/-- Outcome of a Python expression that can raise: either the exception
propagates, or a value is produced. -/
inductive PyResult (α : Type) where
  | raised
  | ok (a : α)
deriving DecidableEq, Repr

/-- Outcome of an HTTP request made with `requests`: the request itself raised
(network error / timeout), or a response arrived with a status code and a
body whose JSON parse (`resp.json()`) may itself raise. -/
inductive HttpOutcome (β : Type) where
  | netError
  | response (status : Nat) (body : PyResult β)
deriving DecidableEq, Repr

/-- `resp.raise_for_status()`: raises exactly for 4xx and 5xx status codes. -/
def raise_for_status (status : Nat) : PyResult Unit :=
  if 400 ≤ status ∧ status < 600 then .raised else .ok ()

/-- The inner `message` object of a Pub/Sub push envelope; `data` is the
base64 payload string, `none` when the `data` key is absent. -/
structure Msg where
  data : Option String
deriving DecidableEq, Repr

/-- The Pub/Sub push envelope; `message` is `none` when the key is absent. -/
structure Envelope where
  message : Option Msg
deriving DecidableEq, Repr

/-- JSON value of the `historyId` field: the wire format allows a string or a
number (`str()` is applied before use). -/
inductive HistVal where
  | s (v : String)
  | n (v : Int)
deriving DecidableEq, Repr

/-- Decoded notification payload (`json.loads` of the base64-decoded data);
either field may be absent. -/
structure Payload where
  emailAddress : Option String
  historyId : Option HistVal
deriving DecidableEq, Repr

/-- Python `str(x)` for `x = payload.get("historyId")`: `str(None)` is the
four-character string `"None"`, numbers print in decimal. -/
def py_str : Option HistVal → String
  | none => "None"
  | some (.s v) => v
  | some (.n v) => toString v

/-- Python truthiness of an optional string: `None` and `""` are falsy. -/
def truthy_str : Option String → Bool
  | none => false
  | some s => !s.isEmpty

/-- Body of a successful Bubble credentials response, inner object: the
`access_token` / `refresh_token` fields of `data`. -/
structure CredsResp where
  access_token : Option String
  refresh_token : Option String
deriving DecidableEq, Repr

/-- JSON body of the Bubble credentials response: `resp.json()`, from which
the code takes `.get("response", {})`. -/
structure CredsBody where
  response : Option CredsResp
deriving DecidableEq, Repr

/-- `fetch_creds_from_bubble` (src/main.py lines 27-43): POST to Bubble, then
`raise_for_status()`, then `resp.json().get("response", {})`, returning the
pair `(access_token, refresh_token)`. The HTTP outcome is the oracle input. -/
def fetch_creds_from_bubble (out : HttpOutcome CredsBody) :
    PyResult (Option String × Option String) :=
  match out with
  | .netError => .raised
  | .response st body =>
    match raise_for_status st with
    | .raised => .raised
    | .ok _ =>
      match body with
      | .raised => .raised
      | .ok b =>
        let data := b.response.getD { access_token := none, refresh_token := none }
        .ok (data.access_token, data.refresh_token)

/-- `{"message": {"id": ...}}` leaf of a `messagesAdded` record. -/
structure GmailMessage where
  id : Option String
deriving DecidableEq, Repr

/-- One element of a history record's `messagesAdded` array. -/
structure AddedRec where
  message : Option GmailMessage
deriving DecidableEq, Repr

/-- One element of the `history` array. -/
structure HistoryRecord where
  messagesAdded : Option (List AddedRec)
deriving DecidableEq, Repr

/-- JSON body of the Gmail history response. -/
structure HistoryResp where
  history : Option (List HistoryRecord)
deriving DecidableEq, Repr

/-- `gmail_history` (src/main.py lines 53-67): a 404 returns `None` (history
too old) before `raise_for_status()`; any other 4xx/5xx raises; otherwise the
parsed JSON body is returned. -/
def gmail_history (out : HttpOutcome HistoryResp) : PyResult (Option HistoryResp) :=
  match out with
  | .netError => .raised
  | .response st body =>
    if st = 404 then .ok none
    else
      match raise_for_status st with
      | .raised => .raised
      | .ok _ =>
        match body with
        | .raised => .raised
        | .ok b => .ok (some b)

/-- `added.get("message", {}).get("id")`. -/
def added_mid (added : AddedRec) : Option String :=
  (added.message.getD { id := none }).id

/-- Inner loop of the extraction (src/main.py lines 155-158): for each
`messagesAdded` sub-record of one history record, keep `mid` when truthy
(present and non-empty). -/
def record_ids (h : HistoryRecord) : List String :=
  (h.messagesAdded.getD []).filterMap fun added =>
    match added_mid added with
    | none => none
    | some s => if s.isEmpty then none else some s

/-- Extraction loop (src/main.py lines 153-158): appends every truthy `mid`
across `history.get("history", [])`, in order. -/
def extract_ids (resp : HistoryResp) : List String :=
  (resp.history.getD []).flatMap record_ids

/-- The payload enqueued for one message (src/main.py lines 162-166). -/
structure DispatchPayload where
  emailAddress : String
  historyId : String
  messageId : String
deriving DecidableEq, Repr

/-- One outbound network request made during an invocation. -/
inductive NetCall where
  | credsCall (email : String)
  | historyCall (email : String) (token : String) (startHistoryId : String)
  | enqueueCall (p : DispatchPayload)
deriving DecidableEq, Repr

/-- The external collaborators of one invocation: base64+utf8 decoding, JSON
parsing, the Bubble credentials endpoint, the Gmail history endpoint, and the
Cloud Tasks `create_task` call (each of which may raise). -/
structure World where
  b64decode : String → PyResult String
  json_loads : String → PyResult Payload
  creds_http : String → HttpOutcome CredsBody
  history_http : String → String → String → HttpOutcome HistoryResp
  create_task : DispatchPayload → PyResult Unit

/-- Fan-out loop (src/main.py lines 161-166): enqueue each message id in
order; `create_task` raising aborts the loop (the exception propagates),
leaving the remaining ids unattempted. Returns the loop outcome and the
trace of enqueue calls actually made (the raising call included). -/
def fan_out (w : World) (email history_id : String) :
    List String → PyResult Unit × List NetCall
  | [] => (.ok (), [])
  | mid :: rest =>
    let p : DispatchPayload :=
      { emailAddress := email, historyId := history_id, messageId := mid }
    match w.create_task p with
    | .raised => (.raised, [NetCall.enqueueCall p])
    | .ok _ =>
      let r := fan_out w email history_id rest
      (r.1, NetCall.enqueueCall p :: r.2)

/-- Result of one invocation of the push handler: a soft JSON status, the
success response with its `forwarded_count`, or an unhandled exception
(which the framework turns into a 5xx). -/
inductive PipeResult where
  | status (s : String)
  | ok (forwarded_count : Nat)
  | processError
deriving DecidableEq, Repr

/-- src/main.py lines 153-172: extraction of the message ids from the history
window followed by the fan-out; on full success the handler reports
`{"status": "ok", "forwarded_count": len(new_messages)}`. -/
def dispatch_stage (w : World) (email history_id : String) (history : HistoryResp)
    (trace2 : List NetCall) : PipeResult × List NetCall :=
  let new_messages := extract_ids history
  let r := fan_out w email history_id new_messages
  match r.1 with
  | .raised => (.processError, trace2 ++ r.2)
  | .ok _ => (.ok new_messages.length, trace2 ++ r.2)

/-- src/main.py lines 146-172: the pipeline after credentials resolved to a
truthy token: Gmail history call, staleness check, then extraction/fan-out. -/
def after_creds (w : World) (email history_id token : String) :
    PipeResult × List NetCall :=
  let trace2 := [NetCall.credsCall email, NetCall.historyCall email token history_id]
  match gmail_history (w.history_http email token history_id) with
  | .raised => (.processError, trace2)
  | .ok none => (.status "history-too-old", trace2)
  | .ok (some history) => dispatch_stage w email history_id history trace2

/-- src/main.py lines 140-172: the pipeline after field validation: Bubble
credentials lookup (raising propagates), falsy access token short-circuits,
otherwise the history stage runs. -/
def after_validation (w : World) (email history_id : String) :
    PipeResult × List NetCall :=
  match fetch_creds_from_bubble (w.creds_http email) with
  | .raised => (.processError, [NetCall.credsCall email])
  | .ok tokens =>
    if !truthy_str tokens.1 then (.status "no-gmail-creds", [NetCall.credsCall email])
    else after_creds w email history_id (tokens.1.getD "")

/-- `pubsub_push` (src/main.py lines 118-172), returning the JSON response
(or the unhandled-exception outcome) together with the trace of outbound
network calls attempted. -/
def pubsub_push (w : World) (envelope : Envelope) : PipeResult × List NetCall :=
  match envelope.message with
  | none => (.status "ignored", [])
  | some msg =>
    match msg.data with
    | none => (.status "missing-data", [])
    | some data =>
      match w.b64decode data with
      | .raised => (.processError, [])
      | .ok raw =>
        match w.json_loads raw with
        | .raised => (.processError, [])
        | .ok payload =>
          let history_id := py_str payload.historyId
          match payload.emailAddress with
          | none => (.status "missing-fields", [])
          | some email =>
            if email.isEmpty || history_id.isEmpty then (.status "missing-fields", [])
            else after_validation w email history_id

/-! ## Concrete fixtures -/

/-- A `messagesAdded` sub-record carrying the identifier `i`. -/
def mkAdded (i : String) : AddedRec := ⟨some ⟨some i⟩⟩

/-- A history record with a single `messagesAdded` sub-record for `i`. -/
def oneRec (i : String) : HistoryRecord := ⟨some [mkAdded i]⟩

/-- Decoded payload `{"emailAddress": "a@x.com", "historyId": 100}`. -/
def payloadOk : Payload := ⟨some "a@x.com", some (.n 100)⟩

/-- Gmail history body with an empty `history` array. -/
def emptyHist : HistoryResp := ⟨some []⟩

/-- Bubble credentials body with both tokens present. -/
def okCredsBody : CredsBody := ⟨some ⟨some "tok", some "rtok"⟩⟩

/-- Bubble credentials body lacking the `response` key (no tokens). -/
def noTokBody : CredsBody := ⟨none⟩

/-- Envelope whose data decodes (in the worlds below) to `payloadOk`. -/
def envOk : Envelope := ⟨some ⟨some "d"⟩⟩

/-- Happy-path world: decoding succeeds, credentials and history return 200,
the history window is empty and every enqueue is accepted. -/
def Wbase : World :=
  ⟨fun _ => .ok "raw", fun _ => .ok payloadOk,
   fun _ => .response 200 (.ok okCredsBody),
   fun _ _ _ => .response 200 (.ok emptyHist),
   fun _ => .ok ()⟩

/-- World whose base64 decoding raises on every payload. -/
def Wbadb64 : World :=
  ⟨fun _ => .raised, Wbase.json_loads, Wbase.creds_http, Wbase.history_http,
   Wbase.create_task⟩

/-- World whose base64 decoding of the empty string yields the empty string
(as Python's `b64decode` does) and whose JSON parsing raises (as Python's
`json.loads` does on the empty string). -/
def Wbadjson : World :=
  ⟨fun _ => .ok "", fun _ => .raised, Wbase.creds_http, Wbase.history_http,
   Wbase.create_task⟩

/-! ## C1 — extraction dedup -/

/-- HistoryWindow with two records each adding `"m1"` and one adding `"m2"`. -/
def C1win : HistoryResp := ⟨some [oneRec "m1", oneRec "m1", oneRec "m2"]⟩

/-- Claim C1 as stated is false: on the window with two records adding `"m1"`
and one adding `"m2"`, the extraction loop of `pubsub_push` outputs
`["m1", "m1", "m2"]` — the duplicate is kept, and the output is not the
claimed `["m1", "m2"]`. The source loop has no seen-set: it appends every
truthy identifier. -/
theorem C1_counterexample :
    extract_ids C1win = ["m1", "m1", "m2"] ∧
    ¬ (extract_ids C1win).Nodup ∧
    extract_ids C1win ≠ ["m1", "m2"] :=
  ⟨rfl, by decide, by decide⟩

/-- Claim C1 amended: the Event Extractor performs no deduplication — it is
compositional over records (outputs concatenate in window order) and keeps
every sub-record's non-empty identifier in place even when it occurred
before, so the example window extracts `["m1", "m1", "m2"]`. -/
theorem C1_amended (a b : List HistoryRecord) (l1 l2 : List AddedRec)
    (t : String) (ht : t.isEmpty = false) :
    extract_ids ⟨some (a ++ b)⟩ = extract_ids ⟨some a⟩ ++ extract_ids ⟨some b⟩ ∧
    record_ids ⟨some (l1 ++ mkAdded t :: l2)⟩ =
      record_ids ⟨some l1⟩ ++ t :: record_ids ⟨some l2⟩ ∧
    extract_ids C1win = ["m1", "m1", "m2"] := by
  refine ⟨?_, ?_, rfl⟩
  · simp [extract_ids]
  · simp [record_ids, List.filterMap_cons, added_mid, mkAdded, ht]

/-- Witness for `C1_amended` at a concrete window, with the dedup-defeating
occurrence `"m1"` inserted after an identical one. -/
theorem C1_amended_witness :
    extract_ids ⟨some ([oneRec "m1"] ++ [oneRec "m2"])⟩ =
      extract_ids ⟨some [oneRec "m1"]⟩ ++ extract_ids ⟨some [oneRec "m2"]⟩ ∧
    record_ids ⟨some ([mkAdded "m1"] ++ mkAdded "m1" :: [])⟩ =
      record_ids ⟨some [mkAdded "m1"]⟩ ++ "m1" :: record_ids ⟨some ([] : List AddedRec)⟩ ∧
    extract_ids C1win = ["m1", "m1", "m2"] :=
  C1_amended [oneRec "m1"] [oneRec "m2"] [mkAdded "m1"] [] "m1" (by decide)

/-! ## C5 — decode failure handling -/

/-- Claim C5 as stated is false at this input: a payload whose base64
decoding raises escapes the handler (there is no try/except around
`base64.b64decode`/`json.loads`), i.e. the invocation ends in the
unhandled-exception outcome `processError` — the 5xx the framework produces —
not a 200-level soft status. -/
theorem C5_counterexample :
    pubsub_push Wbadb64 ⟨some ⟨some "%%%"⟩⟩ = (.processError, []) ∧
    PipeResult.processError ≠ .status "missing-data" :=
  ⟨rfl, by decide⟩

/-- Claim C5 amended: a payload whose base64 decoding or JSON parsing raises
surfaces as a processing error (unhandled exception, hence a 5xx), with no
network call made — it is not converted to a 200-level soft status. -/
theorem C5_amended (w w2 : World) (d d2 raw : String)
    (h1 : w.b64decode d = .raised) (h2 : w2.b64decode d2 = .ok raw)
    (h3 : w2.json_loads raw = .raised) :
    pubsub_push w ⟨some ⟨some d⟩⟩ = (.processError, []) ∧
    pubsub_push w2 ⟨some ⟨some d2⟩⟩ = (.processError, []) := by
  constructor
  · simp [pubsub_push, h1]
  · simp [pubsub_push, h2, h3]

/-- Witness for `C5_amended` on concrete invalid-base64 and invalid-JSON
payloads. -/
theorem C5_amended_witness :
    pubsub_push Wbadb64 ⟨some ⟨some "%%"⟩⟩ = (.processError, []) ∧
    pubsub_push Wbadjson ⟨some ⟨some "e30="⟩⟩ = (.processError, []) :=
  C5_amended Wbadb64 Wbadjson "%%" "e30=" "" rfl rfl rfl

/-! ## C8 — missing message / missing data -/

/-- Helper: the pipeline after the message-id extraction never reports the
`missing-data` status. -/
theorem dispatch_stage_fst_ne_missing_data (w : World) (e hid : String)
    (hist : HistoryResp) (tr : List NetCall) :
    (dispatch_stage w e hid hist tr).1 ≠ .status "missing-data" := by
  unfold dispatch_stage
  cases h : (fan_out w e hid (extract_ids hist)).1 <;> simp [h]

/-- Helper: the pipeline after field validation never reports the
`missing-data` status. -/
theorem after_validation_fst_ne_missing_data (w : World) (e hid : String) :
    (after_validation w e hid).1 ≠ .status "missing-data" := by
  unfold after_validation after_creds
  cases hfc : fetch_creds_from_bubble (w.creds_http e) with
  | raised => simp
  | ok tokens =>
    cases htr : truthy_str tokens.1 with
    | false => simp [htr]
    | true =>
      simp only [htr, Bool.not_true, Bool.false_eq_true, if_false]
      cases hg : gmail_history (w.history_http e (tokens.1.getD "") hid) with
      | raised => simp [hg]
      | ok o =>
        cases o with
        | none => simp [hg]
        | some hist => simpa [hg] using dispatch_stage_fst_ne_missing_data w e hid hist _

/-- Claim C8 as stated is false for present-but-empty `data`: the guard in
`pubsub_push` only checks `"data" not in msg`, so a message carrying the
empty string proceeds to decoding (where Python's `json.loads("")` raises)
and ends as a processing error, not the `missing-data` status. -/
theorem C8_counterexample :
    pubsub_push Wbadjson ⟨some ⟨some ""⟩⟩ = (.processError, []) ∧
    PipeResult.processError ≠ .status "missing-data" :=
  ⟨rfl, by decide⟩

/-- Claim C8 amended: an envelope lacking `message` returns `"ignored"` and
an envelope whose message lacks the `data` key returns `"missing-data"`, in
both cases with zero network calls; but a message whose `data` is present
and empty is not caught by that guard — whatever the decoders do, the result
is never the `missing-data` status. -/
theorem C8_amended (w : World) :
    pubsub_push w ⟨none⟩ = (.status "ignored", []) ∧
    pubsub_push w ⟨some ⟨none⟩⟩ = (.status "missing-data", []) ∧
    (pubsub_push w ⟨some ⟨some ""⟩⟩).1 ≠ .status "missing-data" := by
  refine ⟨rfl, rfl, ?_⟩
  unfold pubsub_push
  cases hb : w.b64decode "" with
  | raised => simp [hb]
  | ok raw =>
    cases hj : w.json_loads raw with
    | raised => simp [hb, hj]
    | ok pl =>
      cases hm : pl.emailAddress with
      | none => simp [hb, hj, hm]
      | some e =>
        cases hc : e.isEmpty || (py_str pl.historyId).isEmpty with
        | true => simp [hb, hj, hm, hc]
        | false =>
          simpa [hb, hj, hm, hc] using
            after_validation_fst_ne_missing_data w e (py_str pl.historyId)

/-! ## Validation-stage helper -/

/-- When the envelope decodes to a payload with a truthy email and a truthy
(string-coerced) history id, `pubsub_push` reduces to the credential stage. -/
theorem push_valid (w : World) (msg : Msg) (d raw : String) (pl : Payload) (e : String)
    (h1 : msg.data = some d) (h2 : w.b64decode d = .ok raw)
    (h3 : w.json_loads raw = .ok pl) (h4 : pl.emailAddress = some e)
    (h5 : e.isEmpty = false) (h6 : (py_str pl.historyId).isEmpty = false) :
    pubsub_push w ⟨some msg⟩ = after_validation w e (py_str pl.historyId) := by
  simp [pubsub_push, h1, h2, h3, h4, h5, h6]

/-! ## C3 — missing-fields guard -/

/-- Decoded payload with `historyId` absent. -/
def payloadNoHid : Payload := ⟨some "a@x.com", none⟩

/-- Decoded payload with `emailAddress` absent. -/
def payloadNoEmail : Payload := ⟨none, some (.n 100)⟩

/-- World decoding to a payload that lacks `historyId`; the credentials
endpoint answers 200 with no tokens. -/
def W3 : World :=
  ⟨fun _ => .ok "raw", fun _ => .ok payloadNoHid,
   fun _ => .response 200 (.ok noTokBody), Wbase.history_http, Wbase.create_task⟩

/-- World decoding to a payload that lacks `emailAddress`. -/
def W3e : World :=
  ⟨fun _ => .ok "raw", fun _ => .ok payloadNoEmail,
   W3.creds_http, Wbase.history_http, Wbase.create_task⟩

/-- Claim C3 exposes a code bug: the guard `if not email or not history_id`
is meant to catch both missing fields, but `history_id = str(payload.get("historyId"))`
turns an absent watermark into the truthy string `"None"`, so the guard never
fires for it: the pipeline proceeds (here all the way to the credentials
call) instead of returning `missing-fields`. The symmetric case (missing
email) is caught as intended. -/
theorem C3_code_bug :
    py_str none = "None" ∧
    pubsub_push W3 envOk = (.status "no-gmail-creds", [.credsCall "a@x.com"]) ∧
    (pubsub_push W3 envOk).1 ≠ .status "missing-fields" ∧
    pubsub_push W3e envOk = (.status "missing-fields", []) :=
  ⟨rfl, rfl, by decide, rfl⟩

/-! ## C4 — credential lookup failure -/

/-- `raise_for_status` raises on every 4xx/5xx. -/
theorem raise_for_status_raised (st : Nat) (h1 : 400 ≤ st) (h2 : st < 600) :
    raise_for_status st = .raised := by
  simp [raise_for_status, h1, h2]

/-- `raise_for_status` is a no-op below 400. -/
theorem raise_for_status_ok (st : Nat) (h : st < 400) :
    raise_for_status st = .ok () := by
  simp only [raise_for_status, ite_eq_right_iff]
  omega

/-- World whose credentials endpoint produces the given outcome; the rest is
the happy path with an empty history window. -/
def Wcreds (o : HttpOutcome CredsBody) : World :=
  ⟨fun _ => .ok "raw", fun _ => .ok payloadOk, fun _ => o,
   Wbase.history_http, Wbase.create_task⟩

/-- A 4xx/5xx from the credentials endpoint makes `fetch_creds_from_bubble`
raise. -/
theorem fetch_creds_raises_on_status (st : Nat) (body : PyResult CredsBody)
    (h1 : 400 ≤ st) (h2 : st < 600) :
    fetch_creds_from_bubble (.response st body) = .raised := by
  simp [fetch_creds_from_bubble, raise_for_status_raised st h1 h2]

/-- When the credential fetch raises, the invocation (on a valid payload)
ends as a processing error after the single credentials call. -/
theorem push_Wcreds_raised (o : HttpOutcome CredsBody)
    (h : fetch_creds_from_bubble o = .raised) :
    pubsub_push (Wcreds o) envOk = (.processError, [.credsCall "a@x.com"]) := by
  have hv := push_valid (Wcreds o) ⟨some "d"⟩ "d" "raw" payloadOk "a@x.com"
    rfl rfl rfl rfl (by decide) (by decide)
  rw [show envOk = (⟨some ⟨some "d"⟩⟩ : Envelope) from rfl, hv]
  simp [after_validation, Wcreds, h]

/-- Claim C4 as stated is false at this input: a 500 from the credentials
endpoint does not yield "absent" — `resp.raise_for_status()` raises, the
exception escapes `pubsub_push`, and the invocation ends as a processing
error rather than the `no-gmail-creds` status. -/
theorem C4_counterexample :
    fetch_creds_from_bubble (.response 500 (.ok okCredsBody)) = .raised ∧
    pubsub_push (Wcreds (.response 500 (.ok okCredsBody))) envOk =
      (.processError, [.credsCall "a@x.com"]) ∧
    PipeResult.processError ≠ .status "no-gmail-creds" :=
  ⟨rfl, rfl, by decide⟩

/-- Claim C4 amended: a network error, any 4xx/5xx response, or a malformed
response body makes the Credential Resolver raise, and the invocation
surfaces as a processing error; "absent" (and the `no-gmail-creds` status)
arises only from a successful response whose body carries no access token. -/
theorem C4_amended (st st2 : Nat) (body : PyResult CredsBody)
    (h1 : 400 ≤ st) (h2 : st < 600) (h3 : 200 ≤ st2) (h4 : st2 < 300) :
    fetch_creds_from_bubble .netError = .raised ∧
    fetch_creds_from_bubble (.response st body) = .raised ∧
    pubsub_push (Wcreds (.response st body)) envOk =
      (.processError, [.credsCall "a@x.com"]) ∧
    fetch_creds_from_bubble (.response st2 .raised) = .raised ∧
    pubsub_push (Wcreds (.response st2 .raised)) envOk =
      (.processError, [.credsCall "a@x.com"]) ∧
    fetch_creds_from_bubble (.response st2 (.ok noTokBody)) = .ok (none, none) ∧
    pubsub_push (Wcreds (.response st2 (.ok noTokBody))) envOk =
      (.status "no-gmail-creds", [.credsCall "a@x.com"]) := by
  have hb : fetch_creds_from_bubble (.response st2 (.raised : PyResult CredsBody)) = .raised := by
    simp [fetch_creds_from_bubble, raise_for_status_ok st2 (by omega)]
  have hnt : fetch_creds_from_bubble (.response st2 (.ok noTokBody)) = .ok (none, none) := by
    simp [fetch_creds_from_bubble, raise_for_status_ok st2 (by omega), noTokBody]
  refine ⟨rfl, fetch_creds_raises_on_status st body h1 h2,
    push_Wcreds_raised _ (fetch_creds_raises_on_status st body h1 h2),
    hb, push_Wcreds_raised _ hb, hnt, ?_⟩
  have hv := push_valid (Wcreds (.response st2 (.ok noTokBody))) ⟨some "d"⟩ "d" "raw"
    payloadOk "a@x.com" rfl rfl rfl rfl (by decide) (by decide)
  rw [show envOk = (⟨some ⟨some "d"⟩⟩ : Envelope) from rfl, hv]
  simp [after_validation, Wcreds, hnt, truthy_str]

/-- Witness for `C4_amended` at statuses 500 and 200. -/
theorem C4_amended_witness :
    fetch_creds_from_bubble .netError = .raised ∧
    fetch_creds_from_bubble (.response 500 (.ok okCredsBody)) = .raised ∧
    pubsub_push (Wcreds (.response 500 (.ok okCredsBody))) envOk =
      (.processError, [.credsCall "a@x.com"]) ∧
    fetch_creds_from_bubble (.response 200 .raised) = .raised ∧
    pubsub_push (Wcreds (.response 200 .raised)) envOk =
      (.processError, [.credsCall "a@x.com"]) ∧
    fetch_creds_from_bubble (.response 200 (.ok noTokBody)) = .ok (none, none) ∧
    pubsub_push (Wcreds (.response 200 (.ok noTokBody))) envOk =
      (.status "no-gmail-creds", [.credsCall "a@x.com"]) :=
  C4_amended 500 200 (.ok okCredsBody) (by decide) (by decide) (by decide) (by decide)

/-! ## C2 — dispatch fan-out and failure independence -/

/-- HistoryWindow adding `"m1"` then `"m2"`. -/
def C2win : HistoryResp := ⟨some [oneRec "m1", oneRec "m2"]⟩

/-- Dispatch payload for `"m1"` under the `payloadOk` notification. -/
def p1c2 : DispatchPayload := ⟨"a@x.com", "100", "m1"⟩

/-- Dispatch payload for `"m2"` under the `payloadOk` notification. -/
def p2c2 : DispatchPayload := ⟨"a@x.com", "100", "m2"⟩

/-- Happy path up to dispatch, but `create_task` raises on `"m1"`. -/
def Wc2 : World :=
  ⟨fun _ => .ok "raw", fun _ => .ok payloadOk,
   fun _ => .response 200 (.ok okCredsBody),
   fun _ _ _ => .response 200 (.ok C2win),
   fun p => if p = p1c2 then .raised else .ok ()⟩

/-- Same world with every enqueue accepted. -/
def Wc2ok : World :=
  ⟨Wc2.b64decode, Wc2.json_loads, Wc2.creds_http, Wc2.history_http, fun _ => .ok ()⟩

/-- All `create_task` calls succeeding: every id is enqueued, in order. -/
theorem fan_out_all_ok (w : World) (email hid : String) (mids : List String)
    (hok : ∀ x ∈ mids, w.create_task ⟨email, hid, x⟩ = .ok ()) :
    fan_out w email hid mids =
      (.ok (), mids.map fun x => .enqueueCall ⟨email, hid, x⟩) := by
  induction mids with
  | nil => rfl
  | cons a t ih =>
    have ha := hok a (List.mem_cons_self a t)
    have ht := ih fun x hx => hok x (List.mem_cons_of_mem a hx)
    simp [fan_out, ha, ht]

/-- A raising `create_task` aborts the loop: the ids before the failing one
and the failing one itself are attempted, those after it never are. -/
theorem fan_out_aborts (w : World) (email hid : String) (pre : List String)
    (m : String) (post : List String)
    (hpre : ∀ x ∈ pre, w.create_task ⟨email, hid, x⟩ = .ok ())
    (hm : w.create_task ⟨email, hid, m⟩ = .raised) :
    fan_out w email hid (pre ++ m :: post) =
      (.raised, (pre ++ [m]).map fun x => .enqueueCall ⟨email, hid, x⟩) := by
  induction pre with
  | nil => simp [fan_out, hm]
  | cons a t ih =>
    have ha := hpre a (List.mem_cons_self a t)
    have ht := ih fun x hx => hpre x (List.mem_cons_of_mem a hx)
    simp [fan_out, ha, ht]

/-- Claim C2 as stated is false at this input: two ids are extracted, the
dispatch of `"m1"` fails, and the sibling `"m2"` is never attempted (a single
enqueue call appears in the trace); the invocation ends as a processing
error instead of reporting a success count. -/
theorem C2_counterexample :
    extract_ids C2win = ["m1", "m2"] ∧
    pubsub_push Wc2 envOk =
      (.processError,
       [.credsCall "a@x.com", .historyCall "a@x.com" "tok" "100",
        .enqueueCall p1c2]) :=
  ⟨rfl, rfl⟩

/-- Claim C2 amended: dispatch is sequential and fail-fast. When every
enqueue succeeds, all N ids are attempted in order and the invocation
reports `forwarded_count = N` (the total extracted, which then equals the
success count); the first enqueue failure aborts the invocation as a
processing error, with the later ids never attempted and no count
reported. -/
theorem C2_amended (w : World) (email hid : String) (mids pre post : List String)
    (m : String)
    (hok : ∀ x ∈ mids, w.create_task ⟨email, hid, x⟩ = .ok ())
    (hpre : ∀ x ∈ pre, w.create_task ⟨email, hid, x⟩ = .ok ())
    (hm : w.create_task ⟨email, hid, m⟩ = .raised) :
    fan_out w email hid mids =
      (.ok (), mids.map fun x => .enqueueCall ⟨email, hid, x⟩) ∧
    fan_out w email hid (pre ++ m :: post) =
      (.raised, (pre ++ [m]).map fun x => .enqueueCall ⟨email, hid, x⟩) ∧
    pubsub_push Wc2ok envOk =
      (.ok 2,
       [.credsCall "a@x.com", .historyCall "a@x.com" "tok" "100",
        .enqueueCall p1c2, .enqueueCall p2c2]) :=
  ⟨fan_out_all_ok w email hid mids hok,
   fan_out_aborts w email hid pre m post hpre hm, rfl⟩

/-- Witness for `C2_amended`: under `Wc2`, `["m2"]` alone fans out fully,
while `"m1"` followed by `"m2"` aborts after the first call. -/
theorem C2_amended_witness :
    fan_out Wc2 "a@x.com" "100" ["m2"] = (.ok (), [.enqueueCall p2c2]) ∧
    fan_out Wc2 "a@x.com" "100" (["m1", "m2"]) = (.raised, [.enqueueCall p1c2]) ∧
    pubsub_push Wc2ok envOk =
      (.ok 2,
       [.credsCall "a@x.com", .historyCall "a@x.com" "tok" "100",
        .enqueueCall p1c2, .enqueueCall p2c2]) := by
  have h := C2_amended Wc2 "a@x.com" "100" ["m2"] [] ["m2"] "m1"
    (by decide) (by decide) (by decide)
  exact h

/-! ## Success-path helpers -/

/-- The network trace of the dispatch stage: the two earlier calls followed
by the enqueue calls of the fan-out. -/
theorem dispatch_stage_snd (w : World) (e hid : String) (hist : HistoryResp)
    (tr2 : List NetCall) :
    (dispatch_stage w e hid hist tr2).2 =
      tr2 ++ (fan_out w e hid (extract_ids hist)).2 := by
  unfold dispatch_stage
  cases h : (fan_out w e hid (extract_ids hist)).1 <;> simp [h]

/-- On a valid payload with working credentials and a 200 history response,
`pubsub_push` reduces to the dispatch stage. -/
theorem push_dispatch (w : World) (msg : Msg) (d raw : String) (pl : Payload)
    (e tok : String) (rt : Option String) (hist : HistoryResp)
    (h1 : msg.data = some d) (h2 : w.b64decode d = .ok raw)
    (h3 : w.json_loads raw = .ok pl) (h4 : pl.emailAddress = some e)
    (h5 : e.isEmpty = false) (h6 : (py_str pl.historyId).isEmpty = false)
    (h7 : fetch_creds_from_bubble (w.creds_http e) = .ok (some tok, rt))
    (h8 : tok.isEmpty = false)
    (h9 : w.history_http e tok (py_str pl.historyId) = .response 200 (.ok hist)) :
    pubsub_push w ⟨some msg⟩ =
      dispatch_stage w e (py_str pl.historyId) hist
        [NetCall.credsCall e, NetCall.historyCall e tok (py_str pl.historyId)] := by
  rw [push_valid w msg d raw pl e h1 h2 h3 h4 h5 h6]
  simp [after_validation, h7, truthy_str, h8, after_creds, h9, gmail_history,
    raise_for_status]

/-! ## C6 — absent credentials short-circuit -/

/-- Claim C6: on a valid payload (truthy email and watermark), when the
credential fetch completes with a falsy access token the invocation returns
the `no-gmail-creds` status with the credentials call as its only network
call — in particular the Gmail history endpoint is never queried. -/
theorem C6 (w : World) (msg : Msg) (d raw : String) (pl : Payload) (e : String)
    (tokens : Option String × Option String)
    (h1 : msg.data = some d) (h2 : w.b64decode d = .ok raw)
    (h3 : w.json_loads raw = .ok pl) (h4 : pl.emailAddress = some e)
    (h5 : e.isEmpty = false) (h6 : (py_str pl.historyId).isEmpty = false)
    (h7 : fetch_creds_from_bubble (w.creds_http e) = .ok tokens)
    (h8 : truthy_str tokens.1 = false) :
    pubsub_push w ⟨some msg⟩ = (.status "no-gmail-creds", [.credsCall e]) ∧
    ∀ a b c, NetCall.historyCall a b c ∉ (pubsub_push w ⟨some msg⟩).2 := by
  have hv := push_valid w msg d raw pl e h1 h2 h3 h4 h5 h6
  rw [hv]
  have hmain : after_validation w e (py_str pl.historyId) =
      (.status "no-gmail-creds", [.credsCall e]) := by
    simp [after_validation, h7, h8]
  refine ⟨hmain, ?_⟩
  intro a b c
  rw [hmain]
  simp

/-- Witness for `C6` under the concrete world whose credentials endpoint
answers 200 with no tokens. -/
theorem C6_witness :
    pubsub_push (Wcreds (.response 200 (.ok noTokBody))) ⟨some ⟨some "d"⟩⟩ =
      (.status "no-gmail-creds", [.credsCall "a@x.com"]) ∧
    NetCall.historyCall "a@x.com" "tok" "100" ∉
      (pubsub_push (Wcreds (.response 200 (.ok noTokBody))) ⟨some ⟨some "d"⟩⟩).2 := by
  have h := C6 (Wcreds (.response 200 (.ok noTokBody))) ⟨some "d"⟩ "d" "raw"
    payloadOk "a@x.com" (none, none) rfl rfl rfl rfl (by decide) (by decide) rfl rfl
  exact ⟨h.1, h.2 "a@x.com" "tok" "100"⟩

/-! ## C7 — stale watermark -/

/-- Claim C7: a 404 from the history endpoint is reported as "stale"
(`gmail_history` returns `None`) while any other 4xx/5xx raises, and on the
stale outcome the invocation returns `history-too-old` right after the two
lookups, with no dispatch attempt in the trace. -/
theorem C7 (body body2 : PyResult HistoryResp) (st : Nat)
    (hne : st ≠ 404) (hs4 : 400 ≤ st) (hs6 : st < 600)
    (w : World) (msg : Msg) (d raw : String) (pl : Payload) (e tok : String)
    (rt : Option String)
    (h1 : msg.data = some d) (h2 : w.b64decode d = .ok raw)
    (h3 : w.json_loads raw = .ok pl) (h4 : pl.emailAddress = some e)
    (h5 : e.isEmpty = false) (h6 : (py_str pl.historyId).isEmpty = false)
    (h7 : fetch_creds_from_bubble (w.creds_http e) = .ok (some tok, rt))
    (h8 : tok.isEmpty = false)
    (h9 : w.history_http e tok (py_str pl.historyId) = .response 404 body2) :
    gmail_history (.response 404 body) = .ok none ∧
    gmail_history (.response st body) = .raised ∧
    pubsub_push w ⟨some msg⟩ =
      (.status "history-too-old",
       [.credsCall e, .historyCall e tok (py_str pl.historyId)]) ∧
    ∀ p, NetCall.enqueueCall p ∉ (pubsub_push w ⟨some msg⟩).2 := by
  have hmain : pubsub_push w ⟨some msg⟩ =
      (.status "history-too-old",
       [.credsCall e, .historyCall e tok (py_str pl.historyId)]) := by
    rw [push_valid w msg d raw pl e h1 h2 h3 h4 h5 h6]
    simp [after_validation, h7, truthy_str, h8, after_creds, h9, gmail_history]
  refine ⟨rfl, ?_, hmain, ?_⟩
  · simp [gmail_history, hne, raise_for_status_raised st hs4 hs6]
  · intro p
    rw [hmain]
    simp

/-- World whose history endpoint answers 404 (stale watermark). -/
def W7 : World :=
  ⟨fun _ => .ok "raw", fun _ => .ok payloadOk,
   fun _ => .response 200 (.ok okCredsBody),
   fun _ _ _ => .response 404 (.ok emptyHist),
   fun _ => .ok ()⟩

/-- Witness for `C7` at status 500 and the concrete 404 world. -/
theorem C7_witness :
    gmail_history (.response 404 (.ok emptyHist)) = .ok none ∧
    gmail_history (.response 500 (.ok emptyHist)) = .raised ∧
    pubsub_push W7 ⟨some ⟨some "d"⟩⟩ =
      (.status "history-too-old",
       [.credsCall "a@x.com", .historyCall "a@x.com" "tok" "100"]) ∧
    NetCall.enqueueCall p1c2 ∉ (pubsub_push W7 ⟨some ⟨some "d"⟩⟩).2 := by
  have h := C7 (.ok emptyHist) (.ok emptyHist) 500 (by decide) (by decide) (by decide)
    W7 ⟨some "d"⟩ "d" "raw" payloadOk "a@x.com" "tok" (some "rtok")
    rfl rfl rfl rfl (by decide) (by decide) rfl (by decide) rfl
  exact ⟨h.1, h.2.1, h.2.2.1, h.2.2.2 p1c2⟩

/-! ## C9 — missing ids skipped; empty window -/

/-- Claim C9: a `messagesAdded` sub-record with a missing message identifier
contributes nothing to the extraction (it is skipped, not an error), and on
a window whose records carry no `messagesAdded` sub-records at all the
invocation succeeds with `forwarded_count = 0` and no dispatch call. -/
theorem C9 (added : AddedRec) (rest : List AddedRec)
    (hmid : added_mid added = none)
    (hist : HistoryResp)
    (hempty : ∀ h ∈ hist.history.getD [], h.messagesAdded.getD [] = [])
    (w : World) (msg : Msg) (d raw : String) (pl : Payload) (e tok : String)
    (rt : Option String)
    (h1 : msg.data = some d) (h2 : w.b64decode d = .ok raw)
    (h3 : w.json_loads raw = .ok pl) (h4 : pl.emailAddress = some e)
    (h5 : e.isEmpty = false) (h6 : (py_str pl.historyId).isEmpty = false)
    (h7 : fetch_creds_from_bubble (w.creds_http e) = .ok (some tok, rt))
    (h8 : tok.isEmpty = false)
    (h9 : w.history_http e tok (py_str pl.historyId) = .response 200 (.ok hist)) :
    record_ids ⟨some (added :: rest)⟩ = record_ids ⟨some rest⟩ ∧
    extract_ids hist = [] ∧
    pubsub_push w ⟨some msg⟩ =
      (.ok 0, [.credsCall e, .historyCall e tok (py_str pl.historyId)]) := by
  have hrec : ∀ h ∈ hist.history.getD [], record_ids h = [] := by
    intro h hh
    simp [record_ids, hempty h hh]
  have hext : extract_ids hist = [] := by
    simp only [extract_ids, List.flatMap_eq_nil_iff]
    exact hrec
  refine ⟨?_, hext, ?_⟩
  · simp [record_ids, List.filterMap_cons, hmid]
  · rw [push_dispatch w msg d raw pl e tok rt hist h1 h2 h3 h4 h5 h6 h7 h8 h9]
    simp [dispatch_stage, hext, fan_out]

/-- History window with one record whose `messagesAdded` array is empty. -/
def hist9 : HistoryResp := ⟨some [⟨some []⟩]⟩

/-- World whose history endpoint returns `hist9`. -/
def W9 : World :=
  ⟨fun _ => .ok "raw", fun _ => .ok payloadOk,
   fun _ => .response 200 (.ok okCredsBody),
   fun _ _ _ => .response 200 (.ok hist9),
   fun _ => .ok ()⟩

/-- Witness for `C9`: an id-less sub-record is skipped, and the one-record
window with zero sub-records forwards zero events. -/
theorem C9_witness :
    record_ids ⟨some ((⟨some ⟨none⟩⟩ : AddedRec) :: [mkAdded "m1"])⟩ =
      record_ids ⟨some [mkAdded "m1"]⟩ ∧
    extract_ids hist9 = [] ∧
    pubsub_push W9 ⟨some ⟨some "d"⟩⟩ =
      (.ok 0, [.credsCall "a@x.com", .historyCall "a@x.com" "tok" "100"]) :=
  C9 ⟨some ⟨none⟩⟩ [mkAdded "m1"] rfl hist9 (by decide)
    W9 ⟨some "d"⟩ "d" "raw" payloadOk "a@x.com" "tok" (some "rtok")
    rfl rfl rfl rfl (by decide) (by decide) rfl (by decide) rfl

/-! ## C10 — dispatched payload shape and refresh-token noninterference -/

/-- The dispatch payloads among a list of network calls, in order. -/
def enqueued : List NetCall → List DispatchPayload
  | [] => []
  | .enqueueCall p :: t => p :: enqueued t
  | .credsCall _ :: t => enqueued t
  | .historyCall _ _ _ :: t => enqueued t

/-- `enqueued` recovers the payload list from a pure fan-out trace. -/
theorem enqueued_map_enqueue (l : List DispatchPayload) :
    enqueued (l.map NetCall.enqueueCall) = l := by
  induction l with
  | nil => rfl
  | cons a t ih => simp [enqueued, ih]

/-- The fan-out trace is always an order-preserving prefix of the full
payload list: the ids enqueued are the first `k` extracted ones. -/
theorem fan_out_trace_take (w : World) (email hid : String) (mids : List String) :
    ∃ k, (fan_out w email hid mids).2 =
      ((mids.map fun x => (⟨email, hid, x⟩ : DispatchPayload)).map
        NetCall.enqueueCall).take k := by
  induction mids with
  | nil => exact ⟨0, rfl⟩
  | cons a t ih =>
    cases hc : w.create_task ⟨email, hid, a⟩ with
    | raised => exact ⟨1, by simp [fan_out, hc]⟩
    | ok u =>
      cases u
      obtain ⟨k, hk⟩ := ih
      exact ⟨k + 1, by simp [fan_out, hc, hk]⟩

/-- The credentials outcome with its refresh token overridden by `r` (the
access token, status and parse outcome are untouched). -/
def refresh_overridden (o : HttpOutcome CredsBody) (r : Option String) :
    HttpOutcome CredsBody :=
  match o with
  | .netError => .netError
  | .response st b =>
    .response st
      (match b with
       | .raised => .raised
       | .ok cb =>
         .ok ⟨match cb.response with
              | none => none
              | some cr => some ⟨cr.access_token, r⟩⟩)

/-- The world `w` with every credentials response's refresh token replaced
by `r`. -/
def set_refresh (w : World) (r : Option String) : World :=
  ⟨w.b64decode, w.json_loads, fun e => refresh_overridden (w.creds_http e) r,
   w.history_http, w.create_task⟩

/-- The raised/access-token part of a credentials fetch result. -/
def access_of : PyResult (Option String × Option String) → PyResult (Option String)
  | .raised => .raised
  | .ok t => .ok t.1

/-- Overriding the refresh token changes neither whether the credential
fetch raises nor the access token it returns. -/
theorem access_fetch_refresh (o : HttpOutcome CredsBody) (r : Option String) :
    access_of (fetch_creds_from_bubble (refresh_overridden o r)) =
      access_of (fetch_creds_from_bubble o) := by
  cases o with
  | netError => rfl
  | response st b =>
    cases hrs : raise_for_status st with
    | raised => simp [refresh_overridden, fetch_creds_from_bubble, hrs]
    | ok u =>
      cases u
      cases b with
      | raised => simp [refresh_overridden, fetch_creds_from_bubble, hrs]
      | ok cb =>
        cases hcr : cb.response with
        | none =>
          simp [refresh_overridden, fetch_creds_from_bubble, hrs, hcr, access_of]
        | some cr =>
          simp [refresh_overridden, fetch_creds_from_bubble, hrs, hcr, access_of]

/-- `set_refresh` keeps the decoder. -/
theorem set_refresh_b64decode (w : World) (r : Option String) :
    (set_refresh w r).b64decode = w.b64decode := rfl

/-- `set_refresh` keeps the JSON parser. -/
theorem set_refresh_json_loads (w : World) (r : Option String) :
    (set_refresh w r).json_loads = w.json_loads := rfl

/-- `set_refresh` rewrites only the credentials responses. -/
theorem set_refresh_creds_http (w : World) (r : Option String) (e : String) :
    (set_refresh w r).creds_http e = refresh_overridden (w.creds_http e) r := rfl

/-- `set_refresh` keeps the history endpoint. -/
theorem set_refresh_history_http (w : World) (r : Option String) :
    (set_refresh w r).history_http = w.history_http := rfl

/-- `set_refresh` keeps the task queue. -/
theorem set_refresh_create_task (w : World) (r : Option String) :
    (set_refresh w r).create_task = w.create_task := rfl

/-- `fan_out` ignores the credentials oracle. -/
theorem fan_out_set_refresh (w : World) (r : Option String) (e hid : String)
    (mids : List String) :
    fan_out (set_refresh w r) e hid mids = fan_out w e hid mids := by
  induction mids with
  | nil => rfl
  | cons a t ih =>
    simp only [fan_out, set_refresh_create_task, ih]

/-- The stages after credential resolution ignore the refresh token. -/
theorem after_creds_set_refresh (w : World) (r : Option String)
    (e hid tok : String) :
    after_creds (set_refresh w r) e hid tok = after_creds w e hid tok := by
  unfold after_creds dispatch_stage
  simp only [set_refresh_history_http, fan_out_set_refresh]

/-- Replacing the refresh token leaves the post-validation pipeline
unchanged. -/
theorem after_validation_set_refresh (w : World) (r : Option String)
    (e hid : String) :
    after_validation (set_refresh w r) e hid = after_validation w e hid := by
  unfold after_validation
  rw [set_refresh_creds_http]
  have ha := access_fetch_refresh (w.creds_http e) r
  cases hf : fetch_creds_from_bubble (w.creds_http e) with
  | raised =>
    cases hg : fetch_creds_from_bubble (refresh_overridden (w.creds_http e) r) with
    | raised => rfl
    | ok t => rw [hf, hg] at ha; simp [access_of] at ha
  | ok t =>
    cases hg : fetch_creds_from_bubble (refresh_overridden (w.creds_http e) r) with
    | raised => rw [hf, hg] at ha; simp [access_of] at ha
    | ok t2 =>
      rw [hf, hg] at ha
      simp only [access_of, PyResult.ok.injEq] at ha
      simp only [hg, ha, after_creds_set_refresh]

/-- Full invocation noninterference: replacing the upstream refresh token
changes nothing in the response or the network trace — in particular no
dispatched payload can depend on (or contain) it. -/
theorem push_set_refresh (w : World) (r : Option String) (env : Envelope) :
    pubsub_push (set_refresh w r) env = pubsub_push w env := by
  unfold pubsub_push
  simp only [set_refresh_b64decode, set_refresh_json_loads,
    after_validation_set_refresh]

/-- Claim C10: on the success path every dispatched payload carries exactly
the decoded email and the string-coerced history id, with only the message
id varying, and the payloads are enqueued in extraction order (the trace is
a prefix of the extracted list mapped to payloads); moreover replacing the
fetched refresh token changes neither the response nor any dispatched
payload. -/
theorem C10 (w : World) (msg : Msg) (d raw : String) (pl : Payload)
    (e tok : String) (rt : Option String) (hist : HistoryResp) (r : Option String)
    (h1 : msg.data = some d) (h2 : w.b64decode d = .ok raw)
    (h3 : w.json_loads raw = .ok pl) (h4 : pl.emailAddress = some e)
    (h5 : e.isEmpty = false) (h6 : (py_str pl.historyId).isEmpty = false)
    (h7 : fetch_creds_from_bubble (w.creds_http e) = .ok (some tok, rt))
    (h8 : tok.isEmpty = false)
    (h9 : w.history_http e tok (py_str pl.historyId) = .response 200 (.ok hist)) :
    (∃ k, enqueued (pubsub_push w ⟨some msg⟩).2 =
      ((extract_ids hist).map fun m =>
        (⟨e, py_str pl.historyId, m⟩ : DispatchPayload)).take k) ∧
    (∀ p ∈ enqueued (pubsub_push w ⟨some msg⟩).2,
      p.emailAddress = e ∧ p.historyId = py_str pl.historyId ∧
        p.messageId ∈ extract_ids hist) ∧
    pubsub_push (set_refresh w r) ⟨some msg⟩ = pubsub_push w ⟨some msg⟩ := by
  have htr : enqueued (pubsub_push w ⟨some msg⟩).2 =
      enqueued (fan_out w e (py_str pl.historyId) (extract_ids hist)).2 := by
    rw [push_dispatch w msg d raw pl e tok rt hist h1 h2 h3 h4 h5 h6 h7 h8 h9]
    rw [dispatch_stage_snd]
    simp [enqueued]
  obtain ⟨k, hk⟩ := fan_out_trace_take w e (py_str pl.historyId) (extract_ids hist)
  have hpre : enqueued (pubsub_push w ⟨some msg⟩).2 =
      ((extract_ids hist).map fun m =>
        (⟨e, py_str pl.historyId, m⟩ : DispatchPayload)).take k := by
    rw [htr, hk, ← List.map_take, enqueued_map_enqueue]
  refine ⟨⟨k, hpre⟩, ?_, push_set_refresh w r ⟨some msg⟩⟩
  intro p hp
  rw [hpre] at hp
  have hp2 : p ∈ (extract_ids hist).map fun m =>
      (⟨e, py_str pl.historyId, m⟩ : DispatchPayload) :=
    List.take_subset k _ hp
  obtain ⟨m, hm, rfl⟩ := List.mem_map.mp hp2
  exact ⟨rfl, rfl, hm⟩

/-- World for the `C10` witness: window `["m1", "m2"]`, everything
accepted. -/
def W10 : World :=
  ⟨fun _ => .ok "raw", fun _ => .ok payloadOk,
   fun _ => .response 200 (.ok okCredsBody),
   fun _ _ _ => .response 200 (.ok C2win),
   fun _ => .ok ()⟩

/-- Witness for `C10` on the concrete two-message window. -/
theorem C10_witness :
    (∃ k, enqueued (pubsub_push W10 ⟨some ⟨some "d"⟩⟩).2 =
      ((extract_ids C2win).map fun m =>
        (⟨"a@x.com", "100", m⟩ : DispatchPayload)).take k) ∧
    (p1c2 ∈ enqueued (pubsub_push W10 ⟨some ⟨some "d"⟩⟩).2 →
      p1c2.emailAddress = "a@x.com" ∧ p1c2.historyId = "100" ∧
        p1c2.messageId ∈ extract_ids C2win) ∧
    pubsub_push (set_refresh W10 none) ⟨some ⟨some "d"⟩⟩ =
      pubsub_push W10 ⟨some ⟨some "d"⟩⟩ := by
  have h := C10 W10 ⟨some "d"⟩ "d" "raw" payloadOk "a@x.com" "tok" (some "rtok")
    C2win none rfl rfl rfl rfl (by decide) (by decide) rfl (by decide) rfl
  exact ⟨h.1, h.2.1 p1c2, h.2.2⟩

end GmailFilter
